import Mathlib

/-!
Verification of the fantasy-sports browser-extension messaging core.

The definitions below are a shallow embedding of the repository
message-passing code:
* the content-script `browser.runtime.onMessage` listener
  (src/unnamed/part_005), which handles `FROM_POPUP` and `GET_PAGE_INFO`
  envelopes;
* the popup `messageListener` in `App` (src/unnamed/part_004), which
  handles `FROM_CONTENT` notifications;
* the `PageInfo` component (src/unnamed/part_002) and the popup
  page-info query function;
* `buildEspnApiUrl`, `generateFetchCode` and `executeEspnFetch`
  (src/src/services/espnApi/espnApiService.js);
* `handleEspnFetchRequest` and `registerEspnMessageHandler`
  (src/src/services/espnApi/espnMessageHandler.js).

JavaScript `undefined`/`null` values are modelled with `Option`, promise
rejection with `Except String`, and the browser environment (active tabs,
the in-page fetch outcome, the clock) with explicit environment records.
-/

namespace FantasySports

/-- A message envelope `{ type, data?, leagueId? }`.  `type` is the
string discriminator; `data` and `leagueId` are optional fields, `none`
modelling a missing (`undefined`) JS property. -/
structure Envelope where
  type : String
  data : Option String := none
  leagueId : Option String := none
  deriving Repr, DecidableEq

/-- The page facts the content script can read:
`window.location.href`, `document.title`,
`document.querySelectorAll("*").length`. -/
structure PageState where
  url : String
  title : String
  elementCount : Nat
  deriving Repr, DecidableEq

/-- A value passed to `sendResponse` by the content script: either the
`{ success, echo }` object of the `FROM_POPUP` branch or the
`{ url, title, elementCount }` object of the `GET_PAGE_INFO` branch. -/
inductive ContentReply where
  | echo (success : Bool) (echoData : Option String)
  | pageInfo (url : String) (title : String) (elementCount : Nat)
  deriving Repr, DecidableEq

/-- Result of running the content-script `onMessage` listener on one
envelope: the ordered list of `sendResponse` invocations and the list of
payloads passed to `displayMessageOnPage`. -/
structure ContentDispatchResult where
  replies : List ContentReply
  displayed : List (Option String)
  deriving Repr, DecidableEq

/-- The content-script `browser.runtime.onMessage` listener
(src/unnamed/part_005).  Two independent `if` statements: the
`FROM_POPUP` branch displays the payload on the page and replies
`{ success: true, echo: message.data }`; the `GET_PAGE_INFO` branch
replies with the three page facts.  Any other type falls through with no
reply and no side effect. -/
def contentDispatch (page : PageState) (msg : Envelope) : ContentDispatchResult :=
  let fromPopupReplies :=
    if msg.type = "FROM_POPUP" then [ContentReply.echo true msg.data] else []
  let fromPopupDisplayed :=
    if msg.type = "FROM_POPUP" then [msg.data] else []
  let pageInfoReplies :=
    if msg.type = "GET_PAGE_INFO" then
      [ContentReply.pageInfo page.url page.title page.elementCount]
    else []
  { replies := fromPopupReplies ++ pageInfoReplies
    displayed := fromPopupDisplayed }

/-- One entry of the popup display list:
`{ id: Date.now(), timestamp: ..., content: message.data, sender: "content" }`. -/
structure DisplayMessage where
  id : Nat
  timestamp : String
  content : Option String
  sender : String
  deriving Repr, DecidableEq

/-- The popup `messageListener` (src/unnamed/part_004): if the
envelope type is `FROM_CONTENT`, prepend a new `DisplayMessage` built
from the payload to the previous list; otherwise leave the list
untouched.  `now`/`nowStr` stand for `Date.now()` and
`new Date().toLocaleTimeString()`. -/
def messageListener (now : Nat) (nowStr : String) (msg : Envelope)
    (prev : List DisplayMessage) : List DisplayMessage :=
  if msg.type = "FROM_CONTENT" then
    { id := now, timestamp := nowStr, content := msg.data, sender := "content" } :: prev
  else prev

/-- A timed inbound event as seen by the popup: the clock readings at
receipt time plus the envelope itself. -/
structure PopupEvent where
  now : Nat
  nowStr : String
  msg : Envelope
  deriving Repr, DecidableEq

/-- Deliver a sequence of events to the popup listener in order,
threading the display list. -/
def deliverAll (events : List PopupEvent) (st : List DisplayMessage) :
    List DisplayMessage :=
  match events with
  | [] => st
  | e :: rest => deliverAll rest (messageListener e.now e.nowStr e.msg st)

/-- The `DisplayMessage` the listener builds for one event. -/
def entryOf (e : PopupEvent) : DisplayMessage :=
  { id := e.now, timestamp := e.nowStr, content := e.msg.data, sender := "content" }

/-- The whitespace characters stripped by the JavaScript builtin
`String.prototype.trim` (ASCII whitespace plus NBSP and BOM; the exotic
Unicode space separators are omitted, the claims only involve the ASCII
set). -/
def isJsWhitespace (c : Char) : Bool :=
  c = ' ' || c = '\t' || c = '\n' || c = '\r' ||
  c = '\x0b' || c = '\x0c' || c = Char.ofNat 0xa0 || c = Char.ofNat 0xfeff

/-- Model of JavaScript `leagueId.trim()`: drop leading and trailing
whitespace characters. -/
def jsTrim (s : String) : String :=
  List.asString
    ((((s.toList.dropWhile isJsWhitespace).reverse.dropWhile isJsWhitespace).reverse))

/-- The `ESPN_API_CONFIG` record of espnApiService.js. -/
structure EspnApiConfig where
  BASE_URL : String
  GAME : String
  SEASON : Nat
  SEGMENT : Nat
  deriving Repr, DecidableEq

/-- `ESPN_API_CONFIG` (espnApiService.js lines 7-12). -/
def ESPN_API_CONFIG : EspnApiConfig :=
  { BASE_URL := "https://lm-api-reads.fantasy.espn.com"
    GAME := "ffl"
    SEASON := 2025
    SEGMENT := 0 }

/-- `buildEspnApiUrl` (espnApiService.js): template substitution of the
four configuration constants plus the caller-supplied identifier. -/
def buildEspnApiUrl (leagueId : String) : String :=
  ESPN_API_CONFIG.BASE_URL ++ "/apis/v3/games/" ++ ESPN_API_CONFIG.GAME ++
    "/seasons/" ++ toString ESPN_API_CONFIG.SEASON ++
    "/segments/" ++ toString ESPN_API_CONFIG.SEGMENT ++
    "/leagues/" ++ leagueId

/-- The league data returned by the upstream API: an opaque JSON blob,
passed through verbatim (no shape validation in the code), modelled as a
wrapped raw string. -/
structure EspnData where
  raw : String
  deriving Repr, DecidableEq

/-- What the in-page `fetch` of the generated code does: either the
transport fails (or the body is not JSON) with some message, or an HTTP
response with a status arrives whose parsed body is `body`. -/
inductive FetchOutcome where
  | networkError (msg : String)
  | response (status : Nat) (body : EspnData)
  deriving Repr, DecidableEq

/-- `response.ok`: status in the inclusive range 200-299. -/
def responseOk (status : Nat) : Bool :=
  200 ≤ status && status ≤ 299

/-- Evaluation of the code string produced by `generateFetchCode`
(espnApiService.js lines 29-48) inside the page: a non-ok response
throws `HTTP error! status: <status>`, and the inner `catch` rewraps
every failure as `Fetch failed: <message>`; on success the parsed JSON
is returned. -/
def pageFetchEval (o : FetchOutcome) : Except String EspnData :=
  match o with
  | .networkError m => .error ("Fetch failed: " ++ m)
  | .response status body =>
      if responseOk status then .ok body
      else .error ("Fetch failed: " ++ ("HTTP error! status: " ++ toString status))

/-- `browser.tabs.executeScript` running the generated fetch code: if
the page code throws, the returned promise rejects with the message of that error; otherwise it resolves with the one-element result array. -/
def executeScriptModel (o : FetchOutcome) : Except String (List EspnData) :=
  match pageFetchEval o with
  | .error m => .error m
  | .ok d => .ok [d]

/-- The browser environment seen by `executeEspnFetch` and
`handleEspnFetchRequest`: the ids returned by
`browser.tabs.query({active: true, currentWindow: true})`, the outcome
of the in-page fetch, and `new Date().toISOString()`. -/
structure EspnEnv where
  tabs : List Nat
  fetchOutcome : FetchOutcome
  nowIso : String
  deriving Repr, DecidableEq

/-- Result of `executeEspnFetch` together with which browser effects ran:
whether `browser.tabs.query` and `browser.tabs.executeScript` were
invoked. -/
structure FetchTrace where
  result : Except String (Option EspnData)
  queriedTabs : Bool
  executedScript : Bool
  deriving Repr

/-- `executeEspnFetch` (espnApiService.js lines 56-87).  The validation
guard `!leagueId || leagueId.trim() === <empty>` throws
`League ID is required` before the `try` block, so that error is not
wrapped.  Inside the `try`: an empty tab list throws
`No active tab found`; otherwise the generated fetch code runs in the
active tab and `results[0]` is returned; every error thrown inside the
`try` is rewrapped as `Failed to execute ESPN API fetch: <message>`. -/
def executeEspnFetch (env : EspnEnv) (leagueId : Option String) : FetchTrace :=
  match leagueId with
  | none =>
      { result := .error "League ID is required"
        queriedTabs := false, executedScript := false }
  | some s =>
      if s = "" || jsTrim s = "" then
        { result := .error "League ID is required"
          queriedTabs := false, executedScript := false }
      else
        match env.tabs with
        | [] =>
            { result := .error ("Failed to execute ESPN API fetch: " ++ "No active tab found")
              queriedTabs := true, executedScript := false }
        | _ :: _ =>
            match executeScriptModel env.fetchOutcome with
            | .error m =>
                { result := .error ("Failed to execute ESPN API fetch: " ++ m)
                  queriedTabs := true, executedScript := true }
            | .ok results =>
                { result := .ok results.head?
                  queriedTabs := true, executedScript := true }

/-- The object `handleEspnFetchRequest` resolves with: the success shape
`{ type, data, leagueId, timestamp }` or the error shape
`{ type, error, leagueId, timestamp }` (the field absent from each shape
is `none`). -/
structure EspnResponse where
  type : String
  data : Option (Option EspnData) := none
  error : Option String := none
  leagueId : Option String
  timestamp : String
  deriving Repr, DecidableEq

/-- `handleEspnFetchRequest` (espnMessageHandler.js lines 20-47).  For
any envelope whose type is not `ESPN_FETCH_LEAGUE_DATA` it resolves with
`null` (modelled `none`); otherwise the whole `await executeEspnFetch`
sits inside `try`/`catch`, so the promise always resolves: with the
success object when the fetch succeeds and with the error object
carrying the error message when it throws. -/
def handleEspnFetchRequest (env : EspnEnv) (msg : Envelope) : Option EspnResponse :=
  if msg.type ≠ "ESPN_FETCH_LEAGUE_DATA" then none
  else
    match (executeEspnFetch env msg.leagueId).result with
    | .ok d =>
        some { type := "ESPN_LEAGUE_DATA_SUCCESS", data := some d
               leagueId := msg.leagueId, timestamp := env.nowIso }
    | .error e =>
        some { type := "ESPN_LEAGUE_DATA_ERROR", error := some e
               leagueId := msg.leagueId, timestamp := env.nowIso }

/-- The `sendResponse` invocations of the background listener installed
by `registerEspnMessageHandler` (espnMessageHandler.js lines 53-70): for
an `ESPN_FETCH_LEAGUE_DATA` envelope the handler promise is awaited
and its (always-resolving) value passed to `sendResponse` once; any
other type is ignored with no reply. -/
def backgroundReplies (env : EspnEnv) (msg : Envelope) : List (Option EspnResponse) :=
  if msg.type = "ESPN_FETCH_LEAGUE_DATA" then [handleEspnFetchRequest env msg]
  else []

/-- The popup page-info `queryFn` (src/unnamed/part_004 lines 13-26):
query the active tabs, then `tabs[0].id` — on an empty array this throws
a `TypeError` (accessing `.id` of `undefined`), rejecting the query;
otherwise the content script is sent a `GET_PAGE_INFO` envelope and the
value it passes to `sendResponse` becomes the query result. -/
def pageInfoQueryFn (page : PageState) (tabs : List Nat) :
    Except String (Option ContentReply) :=
  match tabs with
  | [] => .error "TypeError: tabs[0] is undefined"
  | _ :: _ => .ok ((contentDispatch page { type := "GET_PAGE_INFO" }).replies).head?

/-- Modelled from the spec: the settled state of the React Query
`useQuery` call with `retry: false` (the query library itself is an
external collaborator, not in src).  Per the spec, after the single
attempt the tri-state settles: on rejection to the error state
(`data` undefined, `isLoading` false), on resolution to the data state.
Returns `(data, isLoading)`. -/
def querySettle {α : Type} (outcome : Except String α) : Option α × Bool :=
  match outcome with
  | .ok v => (some v, false)
  | .error _ => (none, false)

/-- The `PageInfo` component (src/unnamed/part_002): renders the loading
text while `isLoading`, the error text `Unable to access page info` when
`pageInfo` is falsy, and the three info rows otherwise (a reply of the
wrong shape would render its missing fields as `undefined`). -/
def renderPageInfo (pageInfo : Option ContentReply) (isLoading : Bool) : String :=
  if isLoading then "Loading page info..."
  else
    match pageInfo with
    | none => "Unable to access page info"
    | some (ContentReply.pageInfo u t c) =>
        "URL: " ++ u ++ " | Title: " ++ t ++ " | Elements: " ++ toString c
    | some (ContentReply.echo _ _) =>
        "URL: undefined | Title: undefined | Elements: undefined"

/-- A sample page used to instantiate witness statements. -/
def samplePage : PageState :=
  { url := "https://example.com", title := "Example", elementCount := 42 }

/-- A sample browser environment used to instantiate witness statements:
one active tab and an upstream 404 response. -/
def sampleEnv : EspnEnv :=
  { tabs := [1]
    fetchOutcome := .response 404 { raw := "errbody" }
    nowIso := "2025-01-01T00:00:00.000Z" }

/-- Helper: on an invalid identifier (missing, or empty after trimming)
`executeEspnFetch` fails with the bare validation error and runs no
browser effect. -/
theorem executeEspnFetch_invalid (env : EspnEnv) (lid : Option String)
    (h : lid = none ∨ ∃ s, lid = some s ∧ jsTrim s = "") :
    executeEspnFetch env lid =
      { result := .error "League ID is required"
        queriedTabs := false, executedScript := false } := by
  rcases h with h | ⟨s, rfl, hs⟩
  · subst h; rfl
  · simp [executeEspnFetch, hs]

/-- Helper: a valid identifier passes the guard, so `executeEspnFetch`
reaches the `try` block. -/
theorem executeEspnFetch_valid (env : EspnEnv) (s : String)
    (hs : jsTrim s ≠ "") :
    executeEspnFetch env (some s) =
      match env.tabs with
      | [] =>
          { result := .error ("Failed to execute ESPN API fetch: " ++ "No active tab found")
            queriedTabs := true, executedScript := false }
      | _ :: _ =>
          match executeScriptModel env.fetchOutcome with
          | .error m =>
              { result := .error ("Failed to execute ESPN API fetch: " ++ m)
                queriedTabs := true, executedScript := true }
          | .ok results =>
              { result := .ok results.head?
                queriedTabs := true, executedScript := true } := by
  have hne : s ≠ "" := by
    intro h
    exact hs (by simp [h, jsTrim, List.asString])
  simp [executeEspnFetch, hne, hs]

/-- Two sample `FROM_CONTENT` notifications used in witness statements. -/
def sampleEvents : List PopupEvent :=
  [{ now := 1, nowStr := "a", msg := { type := "FROM_CONTENT", data := some "one" } },
   { now := 2, nowStr := "b", msg := { type := "FROM_CONTENT", data := some "two" } }]

/-- Helper: a sequence of `FROM_CONTENT` events folds into the reversed
map of their entries, prepended to the starting list. -/
theorem deliverAll_eq_reverse_map (events : List PopupEvent)
    (h : ∀ e ∈ events, e.msg.type = "FROM_CONTENT") :
    ∀ st, deliverAll events st = (events.map entryOf).reverse ++ st := by
  induction events with
  | nil => intro st; rfl
  | cons e rest ih =>
      intro st
      have he : e.msg.type = "FROM_CONTENT" := h e (List.mem_cons_self e rest)
      have hrest : ∀ x ∈ rest, x.msg.type = "FROM_CONTENT" :=
        fun x hx => h x (List.mem_cons_of_mem e hx)
      simp [deliverAll, messageListener, he, ih hrest, entryOf]

/-- C1: every `FROM_POPUP`, `GET_PAGE_INFO` or `ESPN_FETCH_LEAGUE_DATA`
envelope receives exactly one reply from its dispatcher, a
`FROM_CONTENT` envelope receives no reply from either dispatcher, and no
envelope that receives a reply is also treated as a one-way notification
by the popup listener. -/
theorem dispatch_reply_exactly_once (page : PageState) (env : EspnEnv)
    (msg : Envelope) :
    ((msg.type = "FROM_POPUP" ∨ msg.type = "GET_PAGE_INFO") →
        (contentDispatch page msg).replies.length = 1) ∧
    (msg.type = "ESPN_FETCH_LEAGUE_DATA" →
        (backgroundReplies env msg).length = 1) ∧
    (msg.type = "FROM_CONTENT" →
        (contentDispatch page msg).replies = [] ∧ backgroundReplies env msg = []) ∧
    (((contentDispatch page msg).replies ≠ [] ∨ backgroundReplies env msg ≠ []) →
        ∀ now nowStr prev, messageListener now nowStr msg prev = prev) := by
  refine ⟨?_, ?_, ?_, ?_⟩
  · rintro (h | h) <;> simp [contentDispatch, h]
  · intro h; simp [backgroundReplies, h]
  · intro h; simp [contentDispatch, backgroundReplies, h]
  · intro h now nowStr prev
    rcases h with h | h
    · have ht : msg.type = "FROM_POPUP" ∨ msg.type = "GET_PAGE_INFO" := by
        by_contra hc
        push_neg at hc
        exact h (by simp [contentDispatch, hc.1, hc.2])
      have : msg.type ≠ "FROM_CONTENT" := by
        rcases ht with ht | ht <;> simp [ht]
      simp [messageListener, this]
    · have ht : msg.type = "ESPN_FETCH_LEAGUE_DATA" := by
        by_contra hc
        exact h (by simp [backgroundReplies, hc])
      simp [messageListener, ht]

/-- C1 witness: concrete envelopes of each type, with each hypothesis of
the theorem discharged at them. -/
theorem dispatch_reply_exactly_once_witness :
    (contentDispatch samplePage { type := "FROM_POPUP", data := some "hi" }).replies.length = 1 ∧
    (backgroundReplies sampleEnv
        { type := "ESPN_FETCH_LEAGUE_DATA", leagueId := some "59986587" }).length = 1 ∧
    ((contentDispatch samplePage { type := "FROM_CONTENT", data := some "x" }).replies = [] ∧
      backgroundReplies sampleEnv { type := "FROM_CONTENT", data := some "x" } = []) ∧
    messageListener 5 "t" { type := "FROM_POPUP", data := some "hi" } [] = [] :=
  ⟨(dispatch_reply_exactly_once samplePage sampleEnv
      { type := "FROM_POPUP", data := some "hi" }).1 (Or.inl rfl),
   (dispatch_reply_exactly_once samplePage sampleEnv
      { type := "ESPN_FETCH_LEAGUE_DATA", leagueId := some "59986587" }).2.1 rfl,
   (dispatch_reply_exactly_once samplePage sampleEnv
      { type := "FROM_CONTENT", data := some "x" }).2.2.1 rfl,
   (dispatch_reply_exactly_once samplePage sampleEnv
      { type := "FROM_POPUP", data := some "hi" }).2.2.2
     (Or.inl (by decide)) 5 "t" []⟩

/-- C2: the content script replies to every `FROM_POPUP` envelope with
exactly the object `{ success: true, echo: d }` for its own payload `d`,
and a sequence of N such requests yields the N corresponding independent
echo replies (round-trip identity). -/
theorem fromPopup_roundtrip (page : PageState) (ds : List String) :
    (∀ d : String,
        (contentDispatch page { type := "FROM_POPUP", data := some d }).replies =
          [ContentReply.echo true (some d)]) ∧
    ds.map (fun d =>
        (contentDispatch page { type := "FROM_POPUP", data := some d }).replies) =
      ds.map (fun d => [ContentReply.echo true (some d)]) := by
  have h : ∀ d : String,
      (contentDispatch page { type := "FROM_POPUP", data := some d }).replies =
        [ContentReply.echo true (some d)] := fun d => rfl
  exact ⟨h, by simp [h]⟩

/-- C3: delivering K `FROM_CONTENT` notifications to the popup listener,
starting from the empty list, yields exactly K display entries, equal to
the reversed entry list (each new entry prepended), with the entry of
the most recently received notification at position 0. -/
theorem popup_list_most_recent_first (events : List PopupEvent)
    (h : ∀ e ∈ events, e.msg.type = "FROM_CONTENT") :
    (deliverAll events []).length = events.length ∧
    deliverAll events [] = (events.map entryOf).reverse ∧
    (deliverAll events []).head? = events.getLast?.map entryOf := by
  have hd : deliverAll events [] = (events.map entryOf).reverse := by
    simpa using deliverAll_eq_reverse_map events h []
  refine ⟨by simp [hd], hd, ?_⟩
  rw [hd, List.head?_reverse, List.getLast?_map]

/-- C3 witness: two concrete notifications. -/
theorem popup_list_most_recent_first_witness :
    (deliverAll sampleEvents []).length = sampleEvents.length ∧
    deliverAll sampleEvents [] = (sampleEvents.map entryOf).reverse ∧
    (deliverAll sampleEvents []).head? = sampleEvents.getLast?.map entryOf :=
  popup_list_most_recent_first sampleEvents (by decide)

/-- C4: for every identifier, `buildEspnApiUrl` produces the fixed
template with the four configuration constants in their documented
positions and the identifier appended verbatim at the end. -/
theorem buildEspnApiUrl_template (leagueId : String) :
    buildEspnApiUrl leagueId =
      "https://lm-api-reads.fantasy.espn.com/apis/v3/games/ffl/seasons/2025/segments/0/leagues/"
        ++ leagueId := rfl

/-- C5: a missing, empty or whitespace-only identifier makes
`executeEspnFetch` fail with the message `League ID is required`, with
neither the tab query nor the in-tab script execution invoked. -/
theorem executeEspnFetch_rejects_blank (env : EspnEnv) (lid : Option String)
    (h : lid = none ∨ ∃ s, lid = some s ∧ jsTrim s = "") :
    (executeEspnFetch env lid).result = .error "League ID is required" ∧
    (executeEspnFetch env lid).queriedTabs = false ∧
    (executeEspnFetch env lid).executedScript = false := by
  rw [executeEspnFetch_invalid env lid h]
  exact ⟨rfl, rfl, rfl⟩

/-- C5 witness: the whitespace-only identifier of three spaces. -/
theorem executeEspnFetch_rejects_blank_witness :
    (executeEspnFetch sampleEnv (some "   ")).result = .error "League ID is required" ∧
    (executeEspnFetch sampleEnv (some "   ")).queriedTabs = false ∧
    (executeEspnFetch sampleEnv (some "   ")).executedScript = false :=
  executeEspnFetch_rejects_blank sampleEnv (some "   ")
    (Or.inr ⟨"   ", rfl, by decide⟩)

/-- C6: a non-2xx upstream status makes `executeEspnFetch` fail with the
page-side error (which carries the numeric status) wrapped once more by
the stage prefix `Failed to execute ESPN API fetch: `; the full message
ends with the numeric status code. -/
theorem executeEspnFetch_http_error (env : EspnEnv) (s : String)
    (status : Nat) (body : EspnData)
    (hs : jsTrim s ≠ "") (ht : env.tabs ≠ [])
    (ho : env.fetchOutcome = .response status body)
    (hnot2xx : ¬(200 ≤ status ∧ status ≤ 299)) :
    ∃ inner : String,
      (executeEspnFetch env (some s)).result =
        .error ("Failed to execute ESPN API fetch: " ++ inner) ∧
      inner = "Fetch failed: " ++ ("HTTP error! status: " ++ toString status) ∧
      ∃ p : String,
        "Failed to execute ESPN API fetch: " ++ inner = p ++ toString status := by
  refine ⟨"Fetch failed: " ++ ("HTTP error! status: " ++ toString status), ?_, rfl,
    "Failed to execute ESPN API fetch: Fetch failed: HTTP error! status: ", rfl⟩
  have hok : responseOk status = false := by
    simp [responseOk]
    omega
  rw [executeEspnFetch_valid env s hs]
  cases htabs : env.tabs with
  | nil => exact absurd htabs ht
  | cons t rest => simp [executeScriptModel, pageFetchEval, ho, hok]

/-- C6 witness: a 404 response in the sample environment. -/
theorem executeEspnFetch_http_error_witness :
    ∃ inner : String,
      (executeEspnFetch sampleEnv (some "59986587")).result =
        .error ("Failed to execute ESPN API fetch: " ++ inner) ∧
      inner = "Fetch failed: " ++ ("HTTP error! status: " ++ toString 404) ∧
      ∃ p : String,
        "Failed to execute ESPN API fetch: " ++ inner = p ++ toString 404 :=
  executeEspnFetch_http_error sampleEnv "59986587" 404 { raw := "errbody" }
    (by decide) (by decide) rfl (by decide)

/-- C7: when the active-tab query yields zero tabs, the page-info query
rejects, the settled query state is not loading, and the `PageInfo`
component renders the error text `Unable to access page info` — no
uncontrolled crash and no indefinite loading. -/
theorem pageInfo_zero_tabs_settles_error (page : PageState) :
    (querySettle (pageInfoQueryFn page [])).2 = false ∧
    renderPageInfo (querySettle (pageInfoQueryFn page [])).1.join
        (querySettle (pageInfoQueryFn page [])).2 =
      "Unable to access page info" :=
  ⟨rfl, rfl⟩

/-- C8: `handleEspnFetchRequest` always resolves: for an
`ESPN_FETCH_LEAGUE_DATA` envelope it resolves with the success object
(type, data, leagueId, timestamp) when the fetch succeeds and with the
error object (type, error message, leagueId, timestamp) when the fetch
fails; for every other envelope type it resolves with null. -/
theorem handleEspnFetchRequest_total (env : EspnEnv) (msg : Envelope) :
    (msg.type = "ESPN_FETCH_LEAGUE_DATA" →
        (∃ d, (executeEspnFetch env msg.leagueId).result = .ok d ∧
            handleEspnFetchRequest env msg =
              some { type := "ESPN_LEAGUE_DATA_SUCCESS", data := some d
                     leagueId := msg.leagueId, timestamp := env.nowIso }) ∨
        (∃ e, (executeEspnFetch env msg.leagueId).result = .error e ∧
            handleEspnFetchRequest env msg =
              some { type := "ESPN_LEAGUE_DATA_ERROR", error := some e
                     leagueId := msg.leagueId, timestamp := env.nowIso })) ∧
    (msg.type ≠ "ESPN_FETCH_LEAGUE_DATA" → handleEspnFetchRequest env msg = none) := by
  constructor
  · intro h
    cases hr : (executeEspnFetch env msg.leagueId).result with
    | ok d => exact Or.inl ⟨d, rfl, by simp [handleEspnFetchRequest, h, hr]⟩
    | error e => exact Or.inr ⟨e, rfl, by simp [handleEspnFetchRequest, h, hr]⟩
  · intro h
    simp [handleEspnFetchRequest, h]

/-- C8 witness: an `ESPN_FETCH_LEAGUE_DATA` envelope (upstream 404, so
the error object) and an unrelated envelope, in the sample
environment. -/
theorem handleEspnFetchRequest_total_witness :
    ((∃ d, (executeEspnFetch sampleEnv
          ({ type := "ESPN_FETCH_LEAGUE_DATA", leagueId := some "59986587" } :
            Envelope).leagueId).result = .ok d ∧
        handleEspnFetchRequest sampleEnv
            { type := "ESPN_FETCH_LEAGUE_DATA", leagueId := some "59986587" } =
          some { type := "ESPN_LEAGUE_DATA_SUCCESS", data := some d
                 leagueId := ({ type := "ESPN_FETCH_LEAGUE_DATA",
                                leagueId := some "59986587" } : Envelope).leagueId
                 timestamp := sampleEnv.nowIso }) ∨
      (∃ e, (executeEspnFetch sampleEnv
          ({ type := "ESPN_FETCH_LEAGUE_DATA", leagueId := some "59986587" } :
            Envelope).leagueId).result = .error e ∧
        handleEspnFetchRequest sampleEnv
            { type := "ESPN_FETCH_LEAGUE_DATA", leagueId := some "59986587" } =
          some { type := "ESPN_LEAGUE_DATA_ERROR", error := some e
                 leagueId := ({ type := "ESPN_FETCH_LEAGUE_DATA",
                                leagueId := some "59986587" } : Envelope).leagueId
                 timestamp := sampleEnv.nowIso })) ∧
    handleEspnFetchRequest sampleEnv { type := "FROM_POPUP", data := some "hi" } = none :=
  ⟨(handleEspnFetchRequest_total sampleEnv
      { type := "ESPN_FETCH_LEAGUE_DATA", leagueId := some "59986587" }).1 rfl,
   (handleEspnFetchRequest_total sampleEnv
      { type := "FROM_POPUP", data := some "hi" }).2 (by decide)⟩

/-- C9: an inbound envelope whose type is not `FROM_CONTENT` leaves the
popup display list exactly as it was — only `FROM_CONTENT` envelopes
mutate popup state. -/
theorem popup_ignores_other_types (msg : Envelope)
    (h : msg.type ≠ "FROM_CONTENT") (now : Nat) (nowStr : String)
    (prev : List DisplayMessage) :
    messageListener now nowStr msg prev = prev := by
  simp [messageListener, h]

/-- C9 witness: a `GET_PAGE_INFO` envelope against a nonempty list. -/
theorem popup_ignores_other_types_witness :
    messageListener 7 "w" { type := "GET_PAGE_INFO" }
        [{ id := 1, timestamp := "a", content := some "one", sender := "content" }] =
      [{ id := 1, timestamp := "a", content := some "one", sender := "content" }] :=
  popup_ignores_other_types { type := "GET_PAGE_INFO" } (by decide) 7 "w"
    [{ id := 1, timestamp := "a", content := some "one", sender := "content" }]

/-- C10: the validation failure of `executeEspnFetch` is not wrapped —
for a missing/blank identifier the rejection message is exactly
`League ID is required` — whereas every post-validation failure reaches
the caller with the prefix `Failed to execute ESPN API fetch: `. -/
theorem validation_error_unwrapped (env : EspnEnv) (lid : Option String) :
    ((lid = none ∨ ∃ s, lid = some s ∧ jsTrim s = "") →
        (executeEspnFetch env lid).result = .error "League ID is required") ∧
    (∀ s, lid = some s → jsTrim s ≠ "" →
        ∀ e, (executeEspnFetch env lid).result = .error e →
          ∃ m, e = "Failed to execute ESPN API fetch: " ++ m) := by
  constructor
  · intro h
    rw [executeEspnFetch_invalid env lid h]
  · rintro s rfl hs e he
    rw [executeEspnFetch_valid env s hs] at he
    cases htabs : env.tabs with
    | nil =>
        rw [htabs] at he
        simp at he
        exact ⟨"No active tab found", he.symm⟩
    | cons t rest =>
        rw [htabs] at he
        cases hscript : executeScriptModel env.fetchOutcome with
        | error m =>
            rw [hscript] at he
            simp at he
            exact ⟨m, he.symm⟩
        | ok results =>
            rw [hscript] at he
            simp at he

/-- C10 witness: the blank identifier takes the unwrapped validation
error; a valid identifier with a 404 upstream takes the wrapped stage
prefix. -/
theorem validation_error_unwrapped_witness :
    (executeEspnFetch sampleEnv (some " ")).result = .error "League ID is required" ∧
    ∃ m, "Failed to execute ESPN API fetch: Fetch failed: HTTP error! status: 404" =
      "Failed to execute ESPN API fetch: " ++ m :=
  ⟨(validation_error_unwrapped sampleEnv (some " ")).1 (Or.inr ⟨" ", rfl, by decide⟩),
   (validation_error_unwrapped sampleEnv (some "59986587")).2 "59986587" rfl (by decide)
     "Failed to execute ESPN API fetch: Fetch failed: HTTP error! status: 404" rfl⟩

end FantasySports
